import Mathlib

/-!
Verification of the TMP102 protocol decoder (`pd.py`) against its
natural-language specification.

The development is a shallow embedding of `pd.py`:

* Python machine-free integers become `Nat` (all register words are
  non-negative in the source; bit operations use `&&&`, `>>>`, `<<<`, `|||`).
* Python floats become `ℚ`; every numeric path exercised by the theorems
  (division by 16 on 16-bit words) is exact in binary floating point, so the
  rational model agrees with the float semantics there.
* Python dictionaries with constant keys become association lists or total
  functions; a dictionary access that can raise `KeyError`, a list index that
  can raise `IndexError`, and the `getattr` dynamic dispatch that can raise
  `AttributeError` are modelled with `Option` (`none` = uncaught exception).
* The mutable decoder object becomes an explicit `DecoderState` record; every
  method that mutates `self` takes and returns the state.
* Annotation output (`self.put`) is modelled by accumulating `Fact` records in
  emission order.
-/

/-! ### Enumeration classes for device parameters (pd.py lines 27-85) -/

def GeneralCall.ADDRESS : Nat := 0x00
def GeneralCall.WRITE : Nat := 0x04
def GeneralCall.RESET : Nat := 0x06

def Address.GND : Nat := 0x48
def Address.VCC : Nat := 0x49
def Address.SDA : Nat := 0x4a
def Address.SCL : Nat := 0x4b

def Register.TEMP : Nat := 0
def Register.CONF : Nat := 1
def Register.TLOW : Nat := 2
def Register.THIGH : Nat := 3

def ConfigBits.EM : Nat := 4
def ConfigBits.AL : Nat := 5
def ConfigBits.CR0 : Nat := 6
def ConfigBits.CR1 : Nat := 7
def ConfigBits.SD : Nat := 8
def ConfigBits.TM : Nat := 9
def ConfigBits.POL : Nat := 10
def ConfigBits.F0 : Nat := 11
def ConfigBits.F1 : Nat := 12
def ConfigBits.R0 : Nat := 13
def ConfigBits.R1 : Nat := 14
def ConfigBits.OS : Nat := 15

def TempBits.EM : Nat := 0
def TempBits.RESERVED : Nat := 1

def Params.CUSTOM : Nat := 0
def Params.POWERUP : Nat := 0x60a0

/-! ### Enumeration classes for annotations (pd.py lines 91-120) -/

def AnnAddrs.GC : Nat := 0
def AnnAddrs.GND : Nat := 1
def AnnAddrs.VCC : Nat := 2
def AnnAddrs.SDA : Nat := 3
def AnnAddrs.SCL : Nat := 4

def AnnRegs.RESET : Nat := 5
def AnnRegs.DATA : Nat := 6
def AnnRegs.CONF : Nat := 7
def AnnRegs.TEMP : Nat := 8
def AnnRegs.TLOW : Nat := 9
def AnnRegs.THIGH : Nat := 10

def AnnBits.RESERVED : Nat := 11
def AnnBits.DATA : Nat := 12
def AnnBits.EM : Nat := 13
def AnnBits.AL : Nat := 14
def AnnBits.CR0 : Nat := 15
def AnnBits.SD : Nat := 16
def AnnBits.TM : Nat := 17
def AnnBits.POL : Nat := 18
def AnnBits.F0 : Nat := 19
def AnnBits.R0 : Nat := 20
def AnnBits.OS : Nat := 21

def AnnInfo.WARN : Nat := 22
def AnnInfo.GRST : Nat := 23
def AnnInfo.CHECK : Nat := 24
def AnnInfo.WRITE : Nat := 25
def AnnInfo.READ : Nat := 26
def AnnInfo.CUSTOM : Nat := 27
def AnnInfo.PWRUP : Nat := 28
def AnnInfo.CONF : Nat := 29
def AnnInfo.TEMP : Nat := 30
def AnnInfo.TLOW : Nat := 31
def AnnInfo.THIGH : Nat := 32

/-! ### Parameters mapping (pd.py lines 126-178) -/

def addr_annots : List (Nat × Nat) :=
  [(GeneralCall.ADDRESS, AnnAddrs.GC), (Address.GND, AnnAddrs.GND),
   (Address.VCC, AnnAddrs.VCC), (Address.SDA, AnnAddrs.SDA),
   (Address.SCL, AnnAddrs.SCL)]

def reg_annots_gc : List (Nat × Nat) :=
  [(GeneralCall.RESET, AnnRegs.RESET)]

def reg_annots : List (Nat × Nat) :=
  [(Register.CONF, AnnRegs.CONF), (Register.TEMP, AnnRegs.TEMP),
   (Register.TLOW, AnnRegs.TLOW), (Register.THIGH, AnnRegs.THIGH)]

def prm_annots : List (Nat × Nat) :=
  [(Params.CUSTOM, AnnInfo.CUSTOM), (Params.POWERUP, AnnInfo.PWRUP)]

def rates : List (Nat × String) :=
  [(0b00, "0.25"), (0b01, "1"), (0b10, "4"), (0b11, "8")]

/-- The three Python format masks of `radixes` (pd.py lines 157-161); the
dictionary has no entry for a binary radix. -/
inductive RadixFmt where
  | hexFmt
  | decFmt
  | octFmt
deriving DecidableEq, Repr

def radixes : List (String × RadixFmt) :=
  [("Hex", RadixFmt.hexFmt), ("Dec", RadixFmt.decFmt), ("Oct", RadixFmt.octFmt)]

def faults : List (Nat × String) :=
  [(0b00, "1"), (0b01, "2"), (0b10, "4"), (0b11, "6")]

def resolutions : List (Nat × String) :=
  [(0b11, "12")]

def temp_units : List (String × String) :=
  [("Celsius", "°C"), ("Fahrenheit", "°F"), ("Kelvin", "K")]

/-! ### Annotation label tables (pd.py lines 190-235), keyed by annotation
index; every access in the source uses a key present in the dictionary, so the
tables are total functions defaulting to `[]` on unused indices. -/

def addressesAnn (i : Nat) : List String :=
  if i = AnnAddrs.GC then ["General call", "GEN_CALL", "GC", "G"]
  else if i = AnnAddrs.GND then ["ADD0 grounded", "ADD0_GND", "AG"]
  else if i = AnnAddrs.VCC then ["ADD0 powered", "ADD0_VCC", "AV"]
  else if i = AnnAddrs.SDA then ["ADD0 to SDA", "ADD0_SDA", "AD"]
  else if i = AnnAddrs.SCL then ["ADD0 to SCL", "ADD0_SSCL", "AC"]
  else []

def registersAnn (i : Nat) : List String :=
  if i = AnnRegs.RESET then ["Reset register", "Reset", "Rst", "R"]
  else if i = AnnRegs.DATA then ["Register content", "Content", "Data", "D"]
  else if i = AnnRegs.CONF then
    ["Configuration register", "Configuration", "Conf", "Cfg", "C"]
  else if i = AnnRegs.TEMP then ["Temperature register", "Temperature", "Temp", "T"]
  else if i = AnnRegs.TLOW then ["Low alert register", "Low alert", "Tlow", "L"]
  else if i = AnnRegs.THIGH then ["High alert register", "High alert", "Thigh", "H"]
  else []

def bitsAnn (i : Nat) : List String :=
  if i = AnnBits.RESERVED then ["Reserved bit", "Reserved", "Rsvd", "R"]
  else if i = AnnBits.DATA then ["Data bit", "Data", "D"]
  else if i = AnnBits.EM then ["Extended mode", "EM", "E"]
  else if i = AnnBits.AL then ["Alert", "AL", "A"]
  else if i = AnnBits.CR0 then ["Conversion rate bits", "Conversion rate", "Rate", "R"]
  else if i = AnnBits.SD then ["Shutdown mode", "Shutdown", "Shtd", "SD", "S"]
  else if i = AnnBits.TM then ["Thermostat mode", "Thermostat", "TMode", "TM", "T"]
  else if i = AnnBits.POL then ["Alert active", "Polarity", "Pol", "P"]
  else if i = AnnBits.F0 then ["Consecutive faults", "Faults", "Flts", "F"]
  else if i = AnnBits.R0 then ["Converter resolution", "Resolution", "Res", "R"]
  else if i = AnnBits.OS then ["One-shot conversion", "Oneshot", "OS", "O"]
  else []

def infoAnn (i : Nat) : List String :=
  if i = AnnInfo.WARN then ["Warnings", "Warn", "W"]
  else if i = AnnInfo.GRST then ["General reset", "GenReset", "GRST", "Rst", "R"]
  else if i = AnnInfo.CHECK then
    ["Slave presence check", "Slave check", "Check", "Chk", "C"]
  else if i = AnnInfo.WRITE then ["Write", "Wr", "W"]
  else if i = AnnInfo.READ then ["Read", "Rd", "R"]
  else if i = AnnInfo.CUSTOM then ["Custom", "Cst", "C"]
  else if i = AnnInfo.PWRUP then ["Power-up reset", "PwrReset", "Pwr", "P"]
  else if i = AnnInfo.CONF then ["Configuration", "Conf", "Cfg", "C"]
  else if i = AnnInfo.TEMP then ["Measured temperature", "Temperature", "Temp", "T"]
  else if i = AnnInfo.TLOW then ["Low temperature limit", "Low limit", "Low", "L"]
  else if i = AnnInfo.THIGH then ["High temperature limit", "High limit", "High", "H"]
  else []

/-! ### Decoder options and session state -/

/-- The two decoder options (pd.py lines 275-280). -/
structure Options where
  radix : String
  units : String
deriving DecidableEq, Repr

def radixOptionValues : List String := ["Hex", "Dec", "Oct"]

def radixOptionDefault : String := "Hex"

def unitsOptionValues : List String := ["Celsius", "Fahrenheit", "Kelvin"]

def unitsOptionDefault : String := "Celsius"

def defaultOpts : Options := { radix := radixOptionDefault, units := unitsOptionDefault }

/-- Instance variables of the `Decoder` object (pd.py `reset`, lines 294-309). -/
structure DecoderState where
  ss : Nat
  es : Nat
  ssb : Nat
  ssd : Nat
  esd : Nat
  bits : List (Nat × Nat × Nat)
  bytes : List Nat
  write : Bool
  state : String
  addr : Nat
  reg : Nat
  em : Bool
deriving DecidableEq, Repr

/-- Translation of `Decoder.reset` (pd.py lines 294-309). -/
def Decoder.reset : DecoderState :=
  { ss := 0, es := 0, ssb := 0, ssd := 0, esd := 0, bits := [], bytes := [],
    write := true, state := "IDLE", addr := Address.GND, reg := Register.TEMP,
    em := false }

/-- One emitted annotation record: `self.put(ss, es, self.out_ann, [ann, annots])`. -/
structure DecFact where
  ss : Nat
  es : Nat
  ann : Nat
  annots : List String
deriving DecidableEq, Repr

/-! ### Annotation variant composer (`compose_annot`, pd.py lines 315-397) -/

/-- Python `str.strip()` restricted to its use on label strings. -/
def pyStrip (s : String) : String :=
  String.mk (((s.data.dropWhile Char.isWhitespace).reverse.dropWhile
    Char.isWhitespace).reverse)

/-- The inner unit loop of `compose_annot`: `ann_item` keeps accumulating each
unit (`ann_item += unit`) and every intermediate value is appended. -/
def unitChain (base : String) : List String → List String
  | [] => []
  | u :: us => (base ++ u) :: unitChain (base ++ u) us

/-- The body of the `for lbl in ann_label` loop for one base label `ann`:
with no values, just `ann`; with values, `"ann: val"` then the unit chain. -/
def annForPair (ann : String) (value unit : List String) : List String :=
  match value with
  | [] => [ann]
  | _ :: _ =>
    value.flatMap (fun v => (ann ++ ": " ++ v) :: unitChain (ann ++ ": " ++ v) unit)

/-- Sort key of `annots.sort(key=len, reverse=True)`: descending string length. -/
def lenGe (a b : String) : Prop := b.length ≤ a.length

instance : DecidableRel lenGe := fun a b => Nat.decLe b.length a.length

instance : IsTotal String lenGe := ⟨fun a b => Nat.le_total b.length a.length⟩

instance : IsTrans String lenGe := ⟨fun _ _ _ h1 h2 => Nat.le_trans h2 h1⟩

/-- Python `ann_label[-2:]`. -/
def lastTwoLabels (l : List String) : List String := l.drop (l.length - 2)

/-- The action list after the default `ann_action = [""]` substitution
(pd.py lines 374-375). -/
def composeActs (ann_action : List String) : List String :=
  if ann_action = [] then [""] else ann_action

/-- The `for act in ann_action: for lbl in ann_label:` double loop of
`compose_annot` (pd.py lines 378-390). -/
def composeCore (ann_label ann_value ann_unit ann_action : List String) :
    List String :=
  (composeActs ann_action).flatMap (fun act =>
    ann_label.flatMap (fun lbl =>
      annForPair (pyStrip (act ++ " " ++ lbl)) ann_value ann_unit))

/-- The annotation list before sorting: the double loop plus, when values
are present, the last two unexpanded labels (pd.py lines 392-395). -/
def composeRaw (ann_label ann_value ann_unit ann_action : List String) :
    List String :=
  if ann_value = [] then composeCore ann_label ann_value ann_unit ann_action
  else composeCore ann_label ann_value ann_unit ann_action ++ lastTwoLabels ann_label

/-- Translation of `Decoder.compose_annot` (pd.py lines 315-397) after the list coercions of
its arguments (all call sites pass lists, single values become one-element
lists, absent arguments become `[]`); `annots.sort(key=len, reverse=True)` is
the stable descending-length sort. -/
def compose_annot (ann_label ann_value ann_unit ann_action : List String) :
    List String :=
  List.insertionSort lenGe (composeRaw ann_label ann_value ann_unit ann_action)

/-! ### Helper methods of the decoder -/

/-- Python `"{:#04x}".format(n)`: `0x` prefix, lowercase hex digits padded to
width 4 in total. -/
def hex04 (n : Nat) : String :=
  let ds := String.mk (Nat.toDigits 16 n)
  "0x" ++ (if ds.length < 2 then "0" ++ ds else ds)

/-- Rendering of the three radix format masks: `0x` + lowercase hex for
`Hex` (the `02` minimum width is always met because of the prefix), plain
decimal for `Dec`, `0o` + octal for `Oct`. -/
def applyRadix : RadixFmt → Nat → String
  | RadixFmt.hexFmt, n => "0x" ++ String.mk (Nat.toDigits 16 n)
  | RadixFmt.decFmt, n => toString n
  | RadixFmt.octFmt, n => "0o" ++ String.mk (Nat.toDigits 8 n)

/-- Translation of `Decoder.format_data` (pd.py lines 495-497): `radixes[option]` raises
`KeyError` (`none`) when the radix option is not a key of the dictionary. -/
def format_data (opts : Options) (data : Nat) : Option String :=
  (radixes.lookup opts.radix).map (fun f => applyRadix f data)

/-- Python `s[0].upper()` on a non-empty label string. -/
def firstUpper (s : String) : String :=
  match s.data with
  | [] => ""
  | c :: _ => String.mk [c.toUpper]

def validAddrs : List Nat := [Address.GND, Address.VCC, Address.SDA, Address.SCL]

/-- Translation of `Decoder.check_addr` (pd.py lines 428-441): returns the boolean result and
the warning annotation emitted on failure. -/
def check_addr (st : DecoderState) (addr_slave : Nat) (check_gencall : Bool) :
    Bool × List DecFact :=
  if validAddrs.contains addr_slave || !check_gencall ||
      (addr_slave == GeneralCall.ADDRESS) then
    (true, [])
  else
    (false, [DecFact.mk st.ssb st.es AnnInfo.WARN
      ["Unknown slave address (" ++ hex04 addr_slave ++ ")"]])

/-- Translation of `Decoder.calculate_temperature` (pd.py lines 443-478).  The sticky update
`self.em = True` on the in-band EM bit happens inside this method, so the
state is threaded through.  `rawdata / 16` is Python float division, exact
for these operands, modelled in `ℚ`.  The `units` option is validated by the
host against the three values of `unitsOptionValues`, hence the `getD`. -/
def calculate_temperature (opts : Options) (st : DecoderState) (rawdata : Nat) :
    DecoderState × ℚ × String :=
  let st := if rawdata &&& (1 <<< TempBits.EM) != 0 then { st with em := true } else st
  let raw2 : Nat :=
    if st.em then
      let r := rawdata >>> 3
      if r > 0x0fff then r ||| 0xe000 else r
    else
      let r := rawdata >>> 4
      if r > 0x07ff then r ||| 0xf000 else r
  let temperature : ℚ := (raw2 : ℚ) / 16
  let temperature : ℚ :=
    if opts.units = "Fahrenheit" then temperature * (9 / 5) + 32
    else if opts.units = "Kelvin" then temperature + 273.15
    else temperature
  let unit := " " ++ ((temp_units.lookup opts.units).getD "")
  (st, temperature, unit)

/-- Translation of `Decoder.collect_data` (pd.py lines 480-487): the first byte is appended,
every later byte is inserted at position 0. -/
def collect_data (st : DecoderState) (databyte : Nat) : DecoderState :=
  let st := { st with esd := st.es }
  if st.bytes.length = 0 then
    { st with ssd := st.ss, bytes := st.bytes ++ [databyte] }
  else
    { st with bytes := databyte :: st.bytes }

/-- Translation of `Decoder.clear_data` (pd.py lines 489-493). -/
def clear_data (st : DecoderState) : DecoderState :=
  { st with ssd := 0, esd := 0, bytes := [], bits := [] }

/-- Translation of `regword = (self.bytes[1] << 8) + self.bytes[0]`; `none` models the
`IndexError` raised when fewer than two bytes were collected. -/
def regwordOf (bytes : List Nat) : Option Nat :=
  match bytes.get? 1, bytes.get? 0 with
  | some b1, some b0 => some ((b1 <<< 8) + b0)
  | _, _ => none

/-- Translation of `Decoder.put_data` (pd.py lines 399-406): spans from the start sample of
`bit_start` to the end sample of `bit_stop`; `none` models `IndexError` on a
too-short bit list.  A bit entry is `(bitvalue, startsample, endsample)`. -/
def put_data (st : DecoderState) (bit_start bit_stop annId : Nat)
    (annots : List String) : Option DecFact :=
  match st.bits.get? bit_start, st.bits.get? bit_stop with
  | some b1, some b2 => some (DecFact.mk b1.2.1 b2.2.2 annId annots)
  | _, _ => none

/-- Translation of `Decoder.put_bit_data` (pd.py lines 408-416). -/
def put_bit_data (st : DecoderState) (i : Nat) : Option DecFact :=
  match st.bits.get? i with
  | some b =>
    some (DecFact.mk b.2.1 b.2.2 AnnBits.DATA
      (compose_annot (bitsAnn AnnBits.DATA) [] [] []))
  | none => none

/-- Translation of `Decoder.put_bit_reserve` (pd.py lines 418-426). -/
def put_bit_reserve (st : DecoderState) (i : Nat) : Option DecFact :=
  match st.bits.get? i with
  | some b =>
    some (DecFact.mk b.2.1 b.2.2 AnnBits.RESERVED
      (compose_annot (bitsAnn AnnBits.RESERVED) [] [] []))
  | none => none

/-! ### Register handlers -/

/-- Translation of `Decoder.handle_addr` (pd.py lines 499-508). -/
def handle_addr (st : DecoderState) : Option (DecoderState × List DecFact) :=
  match st.bytes with
  | [] => some (st, [])
  | b :: _ =>
    let st := { st with addr := b }
    match addr_annots.lookup st.addr with
    | none => none
    | some i =>
      some (clear_data st,
        [DecFact.mk st.ssd st.esd i (compose_annot (addressesAnn i) [] [] [])])

/-- Translation of `Decoder.handle_reg` (pd.py lines 510-522). -/
def handle_reg (st : DecoderState) : Option (DecoderState × List DecFact) :=
  match st.bytes with
  | [] => some (st, [])
  | b :: _ =>
    let st := { st with reg := b }
    let idx? := if st.addr = GeneralCall.ADDRESS then reg_annots_gc.lookup st.reg
                else reg_annots.lookup st.reg
    match idx? with
    | none => none
    | some i =>
      some (clear_data st,
        [DecFact.mk st.ssd st.esd i (compose_annot (registersAnn i) [] [] [])])

/-- Translation of `Decoder.handle_nodata` (pd.py lines 524-528). -/
def handle_nodata (st : DecoderState) : List DecFact :=
  [DecFact.mk st.ssb st.es AnnInfo.CHECK
    (compose_annot (infoAnn AnnInfo.CHECK) [] [] [])]

/-- Translation of `Decoder.handle_datareg_0x06` (pd.py lines 536-540). -/
def handle_datareg_0x06 (st : DecoderState) : Option (DecoderState × List DecFact) :=
  some (st, [DecFact.mk st.ssb st.es AnnInfo.GRST
    (compose_annot (infoAnn AnnInfo.GRST) [] [] [])])

/-- OS bit row of `handle_datareg_0x01` (pd.py lines 545-550). -/
def cfg_fact_os (st : DecoderState) (regword : Nat) : Option DecFact :=
  let os : Nat := if regword &&& (1 <<< ConfigBits.OS) != 0 then 1 else 0
  let os_l := (if os != 0 then "en" else "dis") ++ "abled"
  put_data st ConfigBits.OS ConfigBits.OS AnnBits.OS
    (compose_annot (bitsAnn AnnBits.OS) [toString os, os_l, firstUpper os_l] [] [])

/-- R1:R0 row (pd.py lines 551-555); `resolutions` only has the key `0b11`. -/
def cfg_fact_res (st : DecoderState) (regword : Nat) : Option DecFact :=
  (resolutions.lookup ((regword >>> ConfigBits.R0) &&& 0b11)).bind (fun res =>
    put_data st ConfigBits.R1 ConfigBits.R0 AnnBits.R0
      (compose_annot (bitsAnn AnnBits.R0) [res] ["bit"] []))

/-- F1:F0 row (pd.py lines 556-559). -/
def cfg_fact_flt (st : DecoderState) (regword : Nat) : Option DecFact :=
  (faults.lookup ((regword >>> ConfigBits.F0) &&& 0b11)).bind (fun flt =>
    put_data st ConfigBits.F1 ConfigBits.F0 AnnBits.F0
      (compose_annot (bitsAnn AnnBits.F0) [flt] [] []))

/-- POL bit row (pd.py lines 560-565). -/
def cfg_fact_pol (st : DecoderState) (regword : Nat) : Option DecFact :=
  let pol : Nat := if regword &&& (1 <<< ConfigBits.POL) != 0 then 1 else 0
  let pol_l := if pol != 0 then "high" else "low"
  put_data st ConfigBits.POL ConfigBits.POL AnnBits.POL
    (compose_annot (bitsAnn AnnBits.POL) [toString pol, pol_l, firstUpper pol_l] [] [])

/-- TM bit row (pd.py lines 566-571). -/
def cfg_fact_tm (st : DecoderState) (regword : Nat) : Option DecFact :=
  let tm : Nat := if regword &&& (1 <<< ConfigBits.TM) != 0 then 1 else 0
  let tm_l := if tm != 0 then "interrupt" else "comparator"
  put_data st ConfigBits.TM ConfigBits.TM AnnBits.TM
    (compose_annot (bitsAnn AnnBits.TM) [toString tm, tm_l, firstUpper tm_l] [] [])

/-- SD bit row (pd.py lines 572-577). -/
def cfg_fact_sd (st : DecoderState) (regword : Nat) : Option DecFact :=
  let sd : Nat := if regword &&& (1 <<< ConfigBits.SD) != 0 then 1 else 0
  let sd_l := (if sd != 0 then "en" else "dis") ++ "abled"
  put_data st ConfigBits.SD ConfigBits.SD AnnBits.SD
    (compose_annot (bitsAnn AnnBits.SD) [toString sd, sd_l, firstUpper sd_l] [] [])

/-- CR1:CR0 row (pd.py lines 578-581). -/
def cfg_fact_rate (st : DecoderState) (regword : Nat) : Option DecFact :=
  (rates.lookup ((regword >>> ConfigBits.CR0) &&& 0b11)).bind (fun rate =>
    put_data st ConfigBits.CR1 ConfigBits.CR0 AnnBits.CR0
      (compose_annot (bitsAnn AnnBits.CR0) [rate] ["Hz"] []))

/-- AL bit row (pd.py lines 582-587): the label inverts through `al ^ pol`. -/
def cfg_fact_al (st : DecoderState) (regword : Nat) : Option DecFact :=
  let pol : Nat := if regword &&& (1 <<< ConfigBits.POL) != 0 then 1 else 0
  let al : Nat := if regword &&& (1 <<< ConfigBits.AL) != 0 then 1 else 0
  let al_l := (if (al ^^^ pol) != 0 then "in" else "") ++ "active"
  put_data st ConfigBits.AL ConfigBits.AL AnnBits.AL
    (compose_annot (bitsAnn AnnBits.AL) [toString al, al_l, firstUpper al_l] [] [])

/-- EM bit row (pd.py lines 588-594). -/
def cfg_fact_em (st : DecoderState) (regword : Nat) : Option DecFact :=
  let em : Nat := if regword &&& (1 <<< ConfigBits.EM) != 0 then 1 else 0
  let em_l := (if em != 0 then "en" else "dis") ++ "abled"
  put_data st ConfigBits.EM ConfigBits.EM AnnBits.EM
    (compose_annot (bitsAnn AnnBits.EM) [toString em, em_l, firstUpper em_l] [] [])

/-- Registers row (pd.py lines 598-601). -/
def cfg_fact_data (opts : Options) (st : DecoderState) (regword : Nat) :
    Option DecFact :=
  (format_data opts regword).map (fun fmt =>
    DecFact.mk st.ssd st.esd AnnRegs.DATA
      (compose_annot (registersAnn AnnRegs.DATA) [fmt] [] []))

/-- Info row (pd.py lines 602-611): the power-up word gets the `PWRUP` label,
anything else the `CUSTOM` label, prefixed with the write/read action. -/
def cfg_fact_info (st : DecoderState) (regword : Nat) : Option DecFact :=
  let idx? := if regword = Params.POWERUP then prm_annots.lookup regword
              else prm_annots.lookup Params.CUSTOM
  idx?.map (fun val_idx =>
    let act_idx := if st.write then AnnInfo.WRITE else AnnInfo.READ
    DecFact.mk st.ssb st.es AnnInfo.CONF
      (compose_annot (infoAnn AnnInfo.CONF) (infoAnn val_idx) [] (infoAnn act_idx)))

/-- The annotation emissions of `Decoder.handle_datareg_0x01`
(pd.py lines 542-611), in source order: OS, R1:R0, F1:F0, POL, TM, SD,
CR1:CR0, AL, EM, the four reserved bits 3..0, the register row, the info
row.  `none` as soon as one emission raises. -/
def config_facts (opts : Options) (st : DecoderState) (regword : Nat) :
    Option (List DecFact) :=
  List.mapM id
    ([cfg_fact_os st regword, cfg_fact_res st regword, cfg_fact_flt st regword,
      cfg_fact_pol st regword, cfg_fact_tm st regword, cfg_fact_sd st regword,
      cfg_fact_rate st regword, cfg_fact_al st regword, cfg_fact_em st regword]
     ++ ([3, 2, 1, 0].map (put_bit_reserve st))
     ++ [cfg_fact_data opts st regword, cfg_fact_info st regword])

/-- Translation of `Decoder.handle_datareg_0x01` (pd.py lines 542-611): `self.em = bool(em)`
assigns the EM bit of the written word to the session flag.  `none` models a
raised exception, after which the decoder object is dead, so no state is
returned in that case. -/
def handle_datareg_0x01 (opts : Options) (st : DecoderState) :
    Option (DecoderState × List DecFact) :=
  (regwordOf st.bytes).bind (fun regword =>
    (config_facts opts st regword).map (fun fs =>
      ({ st with em := regword &&& (1 <<< ConfigBits.EM) != 0 }, fs)))

/-- Translation of `Decoder.handle_datareg_0x00` (pd.py lines 613-642): temperature register.
The info-row value is the converted temperature; its textual rendering uses
`toString` on the rational (display only, never relied on by a theorem). -/
def handle_datareg_0x00 (opts : Options) (st : DecoderState) :
    Option (DecoderState × List DecFact) := do
  let regword ← regwordOf st.bytes
  let (st, temp, unit) := calculate_temperature opts st regword
  let em : Nat := if st.em then 1 else 0
  let em_l := (if st.em then "en" else "dis") ++ "abled"
  let fE ← put_data st TempBits.EM TempBits.EM AnnBits.EM
    (compose_annot (bitsAnn AnnBits.EM) [toString em, em_l, firstUpper em_l] [] [])
  let res_bits : Nat := if st.em then 2 else 3
  let fRes ← (List.range res_bits).mapM (fun i => put_bit_reserve st (i + TempBits.RESERVED))
  let data_bits : Nat := 8 * st.bytes.length - 1 - res_bits
  let fDat ← (List.range data_bits).mapM
    (fun i => put_bit_data st (i + TempBits.RESERVED + res_bits))
  let fmt ← format_data opts regword
  let fD := DecFact.mk st.ssd st.esd AnnRegs.TEMP
    (compose_annot (registersAnn AnnRegs.DATA) [fmt] [] [])
  let fI := DecFact.mk st.ssb st.es AnnInfo.TEMP
    (compose_annot (infoAnn AnnInfo.TEMP) [toString temp] [unit] [])
  pure (st, [fE] ++ fRes ++ fDat ++ [fD, fI])

/-- Translation of `Decoder.handle_datareg_0x02` (pd.py lines 644-658): TLOW register. -/
def handle_datareg_0x02 (opts : Options) (st : DecoderState) :
    Option (DecoderState × List DecFact) := do
  let regword ← regwordOf st.bytes
  let (st, temp, unit) := calculate_temperature opts st regword
  let fmt ← format_data opts regword
  let fD := DecFact.mk st.ssd st.esd AnnRegs.TLOW
    (compose_annot (registersAnn AnnRegs.DATA) [fmt] [] [])
  let act_idx := if st.write then AnnInfo.WRITE else AnnInfo.READ
  let fI := DecFact.mk st.ssb st.es AnnInfo.TLOW
    (compose_annot (infoAnn AnnInfo.TLOW) [toString temp] [unit] (infoAnn act_idx))
  pure (st, [fD, fI])

/-- Translation of `Decoder.handle_datareg_0x03` (pd.py lines 660-674): THIGH register. -/
def handle_datareg_0x03 (opts : Options) (st : DecoderState) :
    Option (DecoderState × List DecFact) := do
  let regword ← regwordOf st.bytes
  let (st, temp, unit) := calculate_temperature opts st regword
  let fmt ← format_data opts regword
  let fD := DecFact.mk st.ssd st.esd AnnRegs.THIGH
    (compose_annot (registersAnn AnnRegs.DATA) [fmt] [] [])
  let act_idx := if st.write then AnnInfo.WRITE else AnnInfo.READ
  let fI := DecFact.mk st.ssb st.es AnnInfo.THIGH
    (compose_annot (infoAnn AnnInfo.THIGH) [toString temp] [unit] (infoAnn act_idx))
  pure (st, [fD, fI])

/-- Translation of `Decoder.handle_data` (pd.py lines 530-534): dynamic dispatch on
`"handle_datareg_{:#04x}".format(self.reg)`; a register id with no handler
raises `AttributeError` (`none`).  `clear_data` runs after the handler. -/
def handle_data (opts : Options) (st : DecoderState) :
    Option (DecoderState × List DecFact) :=
  let h? : Option (DecoderState → Option (DecoderState × List DecFact)) :=
    if st.reg = 0x00 then some (handle_datareg_0x00 opts)
    else if st.reg = 0x01 then some (handle_datareg_0x01 opts)
    else if st.reg = 0x02 then some (handle_datareg_0x02 opts)
    else if st.reg = 0x03 then some (handle_datareg_0x03 opts)
    else if st.reg = 0x06 then some handle_datareg_0x06
    else none
  h?.bind (fun h => (h st).map (fun r => (clear_data r.1, r.2)))

/-! ### Transaction state machine -/

/-- The bus primitives delivered by the parent i2c decoder
(the `cmd, databyte` pairs consumed by `Decoder.decode`). -/
inductive BusEvent where
  | start
  | startRepeat
  | stop
  | addressWrite (b : Nat)
  | addressRead (b : Nat)
  | dataWrite (b : Nat)
  | dataRead (b : Nat)
  | bitsEv (bl : List (Nat × Nat × Nat))
deriving DecidableEq, Repr

/-- Predicate for the `BITS` command handled before the state machine. -/
def BusEvent.isBits : BusEvent → Bool
  | BusEvent.bitsEv _ => true
  | _ => false

/-- The bit list carried by a `BITS` command. -/
def BusEvent.bitsOf : BusEvent → List (Nat × Nat × Nat)
  | BusEvent.bitsEv bl => bl
  | _ => []

/-- The `IDLE` branch of `Decoder.decode` (pd.py lines 697-705). -/
def decode_idle (st : DecoderState) : BusEvent → Option (DecoderState × List DecFact)
  | BusEvent.start => some ({ st with ssb := st.ss, state := "ADDRESS SLAVE" }, [])
  | _ => some (st, [])

/-- The `ADDRESS SLAVE` branch of `Decoder.decode` (pd.py lines 707-724). -/
def decode_addr (st : DecoderState) : BusEvent → Option (DecoderState × List DecFact)
  | BusEvent.addressWrite b =>
    let c := check_addr st b true
    if c.1 then
      (handle_addr (collect_data st b)).map (fun r =>
        ({ r.1 with write := true, state := "REGISTER ADDRESS" }, c.2 ++ r.2))
    else some ({ st with state := "IDLE" }, c.2)
  | BusEvent.addressRead b =>
    let c := check_addr st b true
    if c.1 then
      (handle_addr (collect_data st b)).map (fun r =>
        ({ r.1 with write := false, state := "REGISTER DATA" }, c.2 ++ r.2))
    else some ({ st with state := "IDLE" }, c.2)
  | _ => some (st, [])

/-- The `REGISTER ADDRESS` branch of `Decoder.decode` (pd.py lines 726-735). -/
def decode_regaddr (st : DecoderState) : BusEvent → Option (DecoderState × List DecFact)
  | BusEvent.dataWrite b =>
    (handle_reg (collect_data st b)).map (fun r =>
      ({ r.1 with state := "REGISTER DATA" }, r.2))
  | BusEvent.dataRead b =>
    (handle_reg (collect_data st b)).map (fun r =>
      ({ r.1 with state := "REGISTER DATA" }, r.2))
  | BusEvent.stop => some ({ st with state := "IDLE" }, handle_nodata st)
  | _ => some (st, [])

/-- The `REGISTER DATA` branch of `Decoder.decode` (pd.py lines 737-754). -/
def decode_regdata (opts : Options) (st : DecoderState) :
    BusEvent → Option (DecoderState × List DecFact)
  | BusEvent.dataWrite b => some (collect_data st b, [])
  | BusEvent.dataRead b => some (collect_data st b, [])
  | BusEvent.startRepeat => some ({ st with state := "ADDRESS SLAVE" }, [])
  | BusEvent.stop =>
    (handle_data opts st).map (fun r => ({ r.1 with state := "IDLE" }, r.2))
  | _ => some (st, [])

/-- Translation of `Decoder.decode` (pd.py lines 676-755): one step of the state machine.
The sample span is stored first, a `BITS` command only prepends its bit list,
every other command is dispatched on the current state string.  Returns the
new state and the annotations emitted by this event, or `none` when the
Python code raises an uncaught exception. -/
def decode (opts : Options) (st : DecoderState) (startsample endsample : Nat)
    (ev : BusEvent) : Option (DecoderState × List DecFact) :=
  let st := { st with ss := startsample, es := endsample }
  if ev.isBits then some ({ st with bits := ev.bitsOf ++ st.bits }, [])
  else if st.state = "IDLE" then decode_idle st ev
  else if st.state = "ADDRESS SLAVE" then decode_addr st ev
  else if st.state = "REGISTER ADDRESS" then decode_regaddr st ev
  else if st.state = "REGISTER DATA" then decode_regdata opts st ev
  else some (st, [])

/-- Fold `decode` over a list of `(startsample, endsample, event)` triples,
accumulating the emitted annotations; `none` as soon as one step raises. -/
def runEvents (opts : Options) :
    DecoderState → List (Nat × Nat × BusEvent) → Option (DecoderState × List DecFact)
  | st, [] => some (st, [])
  | st, (ss, es, ev) :: rest =>
    match decode opts st ss es ev with
    | none => none
    | some (st', fs) => (runEvents opts st' rest).map (fun r => (r.1, fs ++ r.2))

/-! ### Concrete fixtures used by several claims -/

/-- Sixteen bit spans `(bitvalue, startsample, endsample)`, enough for the
sixteen per-bit annotations of a two-byte register. -/
def bits16 : List (Nat × Nat × Nat) := (List.range 16).map (fun i => (0, 2 * i, 2 * i + 1))

/-- Session state just before the `STOP` of a CONFIG write of word `0x60A0`
(bytes arrive high byte first, so the buffer holds `[0xA0, 0x60]` low byte
first after the insert-at-front collection). -/
def stConf60A0 : DecoderState :=
  { Decoder.reset with
      state := "REGISTER DATA"
      reg := 1
      bytes := [0xA0, 0x60]
      bits := bits16
      ssb := 0
      ssd := 2
      esd := 40
      ss := 40
      es := 41 }

/-- Same situation for a CONFIG write of word `0x6000` (EM bit clear) in a
session whose extended-mode flag is already latched true. -/
def stConf6000em : DecoderState :=
  { stConf60A0 with
      em := true
      bytes := [0x00, 0x60] }

/-- The state part of `calculate_temperature`: the only field the method ever
touches is `em`, set inside the method when bit 0 of the raw word is set. -/
theorem calc_temp_state_eq (opts : Options) (st : DecoderState) (raw : Nat) :
    (calculate_temperature opts st raw).1 =
      if raw &&& (1 <<< TempBits.EM) != 0 then { st with em := true } else st := rfl

/-! ### Claim C1 — stickiness of the extended-mode flag -/

/-- Claim C1, counterexample: a session with `extendedMode = true` processes
the `STOP` of a CONFIG write whose word `0x6000` has the EM bit (bit 4)
clear, and the flag comes out `false` — the claimed sticky-true invariant
fails on `handle_datareg_0x01`, which assigns `self.em = bool(em)`
unconditionally. -/
theorem C1_counterexample :
    (decode defaultOpts stConf6000em 50 51 BusEvent.stop).map (fun r => r.1.em)
      = some false := by decide

/-- Claim C1, amended: a CONFIG register write sets `extendedMode` to exactly
the EM bit of the written word (clearing it when the bit is clear); the flag
is sticky only inside `calculate_temperature`, which sets it and never clears
it, and the explicit reset initialises it to `false`. -/
theorem C1_amended :
    (∀ opts st st' fs w, regwordOf st.bytes = some w →
        handle_datareg_0x01 opts st = some (st', fs) →
        (st'.em = true ↔ w &&& (1 <<< ConfigBits.EM) ≠ 0))
    ∧ (∀ opts st raw, st.em = true → (calculate_temperature opts st raw).1.em = true)
    ∧ Decoder.reset.em = false := by
  refine ⟨?_, ?_, rfl⟩
  · intro opts st st' fs w hw h
    unfold handle_datareg_0x01 at h
    rw [hw, Option.some_bind] at h
    rcases Option.map_eq_some'.mp h with ⟨fs0, _, heq⟩
    cases heq
    simp [bne_iff_ne]
  · intro opts st raw h
    rw [calc_temp_state_eq]
    split
    · rfl
    · exact h

def c1wPair : DecoderState × List DecFact :=
  (handle_datareg_0x01 defaultOpts stConf6000em).getD (Decoder.reset, [])

/-- Witness for `C1_amended` at the concrete CONFIG write of `0x6000` and a
concrete temperature decode in a latched session. -/
theorem C1_witness :
    (c1wPair.1.em = true ↔ 0x6000 &&& (1 <<< ConfigBits.EM) ≠ 0)
    ∧ (calculate_temperature defaultOpts { Decoder.reset with em := true } 0x1900).1.em
        = true :=
  ⟨C1_amended.1 defaultOpts stConf6000em c1wPair.1 c1wPair.2 0x6000 (by rfl) (by rfl),
   C1_amended.2.1 defaultOpts { Decoder.reset with em := true } 0x1900 rfl⟩

/-! ### Claim C2 — normal-mode temperature decode -/

/-- Claim C2: the positive example `0x1900 → 25 °C` holds, but the claimed
signed-16-bit interpretation does not exist in the code: for `0xE700` the
Python value `(0xE700 >> 4) | 0xF000 = 0xFE70` is divided by 16 as a
non-negative integer, giving `4071.0`, not the claimed `-25.0`. -/
theorem C2_code_eval :
    (calculate_temperature defaultOpts Decoder.reset 0x1900).2.1 = 25
    ∧ (calculate_temperature defaultOpts Decoder.reset 0xE700).2.1 = 4071
    ∧ (4071 : ℚ) ≠ -25 := by
  refine ⟨?_, ?_, by norm_num⟩
  · simp [calculate_temperature, defaultOpts, unitsOptionDefault, Decoder.reset, TempBits.EM]
    norm_num
  · simp [calculate_temperature, defaultOpts, unitsOptionDefault, Decoder.reset, TempBits.EM]
    norm_num

/-! ### Claim C5 — byte order of the register-word reconstruction -/

/-- Claim C5, counterexample: collecting `0x19` then `0x00` yields the buffer
`[0x00, 0x19]` and `rawWord = 0x1900`, whose low byte is `0x00`, not the
first-received `0x19` — the first byte received is the high byte. -/
theorem C5_counterexample :
    (collect_data (collect_data Decoder.reset 0x19) 0x00).bytes = [0x00, 0x19]
    ∧ regwordOf [0x00, 0x19] = some 0x1900
    ∧ 0x1900 % 256 ≠ 0x19 := by decide

/-- Claim C5, amended: the first data byte received becomes the HIGH byte of
the reconstructed word; each subsequent byte is inserted before it in the
buffer, and `rawWord = (byte[1] << 8) | byte[0]`, so for a two-byte access
the second byte is the low byte. -/
theorem C5_amended (st : DecoderState) (b1 b2 : Nat) (h : st.bytes = [])
    (h1 : b1 < 256) (h2 : b2 < 256) :
    (collect_data (collect_data st b1) b2).bytes = [b2, b1]
    ∧ regwordOf (collect_data (collect_data st b1) b2).bytes = some ((b1 <<< 8) + b2)
    ∧ ((b1 <<< 8) + b2) / 256 = b1
    ∧ ((b1 <<< 8) + b2) % 256 = b2 := by
  have hbytes : (collect_data (collect_data st b1) b2).bytes = [b2, b1] := by
    simp [collect_data, h]
  have hsl : b1 <<< 8 = b1 * 256 := by
    rw [Nat.shiftLeft_eq]
  refine ⟨hbytes, ?_, ?_, ?_⟩
  · rw [hbytes]; exact rfl
  · rw [hsl]; omega
  · rw [hsl]; omega

/-- Witness for `C5_amended` at the concrete bytes `0x19`, `0x2A`. -/
theorem C5_witness :
    (collect_data (collect_data Decoder.reset 0x19) 0x2A).bytes = [0x2A, 0x19]
    ∧ regwordOf (collect_data (collect_data Decoder.reset 0x19) 0x2A).bytes
        = some ((0x19 <<< 8) + 0x2A)
    ∧ ((0x19 <<< 8) + 0x2A) / 256 = 0x19
    ∧ ((0x19 <<< 8) + 0x2A) % 256 = 0x2A :=
  C5_amended Decoder.reset 0x19 0x2A rfl (by decide) (by decide)

/-! ### Claim C7 — radix options -/

/-- Claim C7, counterexample: the radix option has no `Bin` value and the
`radixes` dictionary has no `Bin` key, so a `Bin` radix cannot be selected
and would fail formatting. -/
theorem C7_counterexample :
    radixOptionValues.contains "Bin" = false
    ∧ format_data { radix := "Bin", units := "Celsius" } 0x60A0 = none := by decide

/-- Claim C7, amended: the radix option ranges over `{Hex, Dec, Oct}` with
default `Hex`, and formatting a register word succeeds for every radix in
that set. -/
theorem C7_amended :
    radixOptionDefault = "Hex"
    ∧ ∀ r, r ∈ radixOptionValues →
        ∀ u n, (format_data { radix := r, units := u } n).isSome = true := by
  refine ⟨rfl, ?_⟩
  intro r hr u n
  simp [radixOptionValues] at hr
  rcases hr with rfl | rfl | rfl <;> rfl

/-- Witness for `C7_amended` at radix `Oct`. -/
theorem C7_witness :
    (format_data { radix := "Oct", units := "Celsius" } 37).isSome = true :=
  C7_amended.2 "Oct" (by decide) "Celsius" 37

/-! ### Claim C10 — purity of the temperature codec -/

/-- Claim C10, counterexample: decoding raw word `0x0001` (in-band EM bit
set) mutates the session state inside `calculate_temperature`: the returned
state differs from the input state, with `em` flipped to `true`. -/
theorem C10_counterexample :
    (calculate_temperature defaultOpts Decoder.reset 0x0001).1 ≠ Decoder.reset
    ∧ (calculate_temperature defaultOpts Decoder.reset 0x0001).1.em = true := by
  decide

/-- Claim C10, amended: `calculate_temperature` leaves every session-state
field except `extendedMode` unchanged; it sets `extendedMode := true` inside
itself exactly when bit 0 of the raw word is set (the in-band EM feedback
happens inside the codec, not at the call site). -/
theorem C10_amended (opts : Options) (st : DecoderState) (raw : Nat) :
    (calculate_temperature opts st raw).1 =
      if raw &&& (1 <<< TempBits.EM) != 0 then { st with em := true } else st :=
  calc_temp_state_eq opts st raw

/-! ### Claim C8 — shape of the composer output -/

theorem annForPair_ne_nil (ann : String) (value unit : List String) :
    annForPair ann value unit ≠ [] := by
  cases value with
  | nil => simp [annForPair]
  | cons v vs => simp [annForPair]

theorem composeActs_ne_nil (action : List String) : composeActs action ≠ [] := by
  unfold composeActs
  split
  · simp
  · assumption

theorem composeCore_ne_nil (label value unit action : List String)
    (h : label ≠ []) : composeCore label value unit action ≠ [] := by
  unfold composeCore
  intro hc
  rw [List.flatMap_eq_nil_iff] at hc
  obtain ⟨a, ha⟩ := List.exists_mem_of_ne_nil _ (composeActs_ne_nil action)
  have h2 := hc a ha
  rw [List.flatMap_eq_nil_iff] at h2
  obtain ⟨l0, hl0⟩ := List.exists_mem_of_ne_nil _ h
  exact annForPair_ne_nil _ _ _ (h2 l0 hl0)

theorem composeRaw_ne_nil (label value unit action : List String)
    (h : label ≠ []) : composeRaw label value unit action ≠ [] := by
  unfold composeRaw
  split
  · exact composeCore_ne_nil _ _ _ _ h
  · intro hc
    rcases List.append_eq_nil.mp hc with ⟨hc1, _⟩
    exact composeCore_ne_nil _ _ _ _ h hc1

/-- Claim C8, counterexample: with an empty label list the composer returns
the empty list, so "never returns an empty list" fails as stated for "every
label list". -/
theorem C8_counterexample : compose_annot [] [] [] [] = [] := by decide

/-- Claim C8, amended: for every NON-EMPTY label list and every combination
of present/absent value, unit and action lists, `compose_annot` returns a
non-empty list sorted by descending string length, and when values are
present every one of the last two original labels appears verbatim in the
output. -/
theorem C8_amended (label value unit action : List String) (s : String)
    (h : label ≠ []) :
    compose_annot label value unit action ≠ []
    ∧ List.Sorted lenGe (compose_annot label value unit action)
    ∧ (value ≠ [] → s ∈ lastTwoLabels label →
        s ∈ compose_annot label value unit action) := by
  refine ⟨?_, ?_, ?_⟩
  · unfold compose_annot
    intro hc
    have hp := List.perm_insertionSort lenGe (composeRaw label value unit action)
    rw [hc] at hp
    exact composeRaw_ne_nil label value unit action h hp.symm.eq_nil
  · unfold compose_annot
    exact List.sorted_insertionSort lenGe _
  · intro hv hs
    unfold compose_annot
    rw [(List.perm_insertionSort lenGe _).mem_iff]
    unfold composeRaw
    rw [if_neg hv]
    exact List.mem_append_right _ hs

/-- Witness for `C8_amended` at a concrete two-label call with a value and a
unit. -/
theorem C8_witness :
    compose_annot ["ab", "c"] ["1"] ["u"] [] ≠ []
    ∧ List.Sorted lenGe (compose_annot ["ab", "c"] ["1"] ["u"] [])
    ∧ "c" ∈ compose_annot ["ab", "c"] ["1"] ["u"] [] :=
  let h := C8_amended ["ab", "c"] ["1"] ["u"] [] "c" (by decide)
  ⟨h.1, h.2.1, h.2.2 (by decide) (by decide)⟩

/-! ### Claim C3 — effect of a Stop event in each state -/

/-- Claim C3, counterexample: in the `ADDRESS SLAVE` state a `STOP` event is
ignored (only address commands are handled there), so the machine stays in
`ADDRESS SLAVE` instead of returning to `IDLE`. -/
theorem C3_counterexample :
    (decode defaultOpts { Decoder.reset with state := "ADDRESS SLAVE" } 10 11
        BusEvent.stop).map (fun r => r.1.state) = some "ADDRESS SLAVE"
    ∧ "ADDRESS SLAVE" ≠ "IDLE" := by decide

/-- Claim C3, amended: a `STOP` event leaves the machine in `IDLE` from the
`IDLE` and `REGISTER ADDRESS` states unconditionally and from `REGISTER
DATA` whenever the data handler does not raise; in the `ADDRESS SLAVE` state
a `STOP` is ignored and the machine remains in `ADDRESS SLAVE`. -/
theorem C3_amended (opts : Options) (stI stA stR stD stD' : DecoderState)
    (ss es : Nat) (fs : List DecFact)
    (hI : stI.state = "IDLE") (hA : stA.state = "ADDRESS SLAVE")
    (hR : stR.state = "REGISTER ADDRESS") (hD : stD.state = "REGISTER DATA")
    (hDres : decode opts stD ss es BusEvent.stop = some (stD', fs)) :
    decode opts stI ss es BusEvent.stop = some ({ stI with ss := ss, es := es }, [])
    ∧ decode opts stR ss es BusEvent.stop
        = some ({ stR with ss := ss, es := es, state := "IDLE" },
            [DecFact.mk stR.ssb es AnnInfo.CHECK
              (compose_annot (infoAnn AnnInfo.CHECK) [] [] [])])
    ∧ stD'.state = "IDLE"
    ∧ decode opts stA ss es BusEvent.stop = some ({ stA with ss := ss, es := es }, []) := by
  refine ⟨?_, ?_, ?_, ?_⟩
  · simp [decode, BusEvent.isBits, decode_idle, hI]
  · simp [decode, BusEvent.isBits, decode_regaddr, handle_nodata, hR]
  · simp [decode, BusEvent.isBits, decode_regdata, hD] at hDres
    obtain ⟨a, -, heq⟩ := hDres
    rw [← heq]
  · simp [decode, BusEvent.isBits, decode_addr, hA]

def stA0 : DecoderState := { Decoder.reset with state := "ADDRESS SLAVE" }

def stR0 : DecoderState := { Decoder.reset with state := "REGISTER ADDRESS" }

def c3wPair : DecoderState × List DecFact :=
  (decode defaultOpts stConf60A0 50 51 BusEvent.stop).getD (Decoder.reset, [])

/-- Witness for `C3_amended` at concrete states in each of the four phases
(the `REGISTER DATA` instance is the successful CONFIG write of `0x60A0`). -/
theorem C3_witness :
    decode defaultOpts Decoder.reset 50 51 BusEvent.stop
      = some ({ Decoder.reset with ss := 50, es := 51 }, [])
    ∧ decode defaultOpts stR0 50 51 BusEvent.stop
      = some ({ stR0 with ss := 50, es := 51, state := "IDLE" },
          [DecFact.mk stR0.ssb 51 AnnInfo.CHECK
            (compose_annot (infoAnn AnnInfo.CHECK) [] [] [])])
    ∧ c3wPair.1.state = "IDLE"
    ∧ decode defaultOpts stA0 50 51 BusEvent.stop
      = some ({ stA0 with ss := 50, es := 51 }, []) :=
  C3_amended defaultOpts Decoder.reset stA0 stR0 stConf60A0 c3wPair.1 50 51 c3wPair.2
    rfl rfl rfl rfl (by rfl)

/-! ### Claim C9 — unknown-address warning and resynchronisation -/

/-- Claim C9: processing an address event with an address outside
`{0x48, 0x49, 0x4A, 0x4B}` and different from the general-call address emits
exactly one warning annotation, forces the state to `IDLE` changing nothing
else, and the next `START` from `IDLE` opens a fresh transaction, changing
only the stored samples and the state. -/
theorem C9_unknown_addr (opts : Options) (st st2 : DecoderState)
    (ss es ss2 es2 : Nat) (a : Nat)
    (hst : st.state = "ADDRESS SLAVE") (hmem : a ∉ validAddrs)
    (hgc : a ≠ GeneralCall.ADDRESS) (hst2 : st2.state = "IDLE") :
    decode opts st ss es (BusEvent.addressWrite a)
      = some ({ st with ss := ss, es := es, state := "IDLE" },
          [DecFact.mk st.ssb es AnnInfo.WARN
            ["Unknown slave address (" ++ hex04 a ++ ")"]])
    ∧ decode opts st ss es (BusEvent.addressRead a)
      = some ({ st with ss := ss, es := es, state := "IDLE" },
          [DecFact.mk st.ssb es AnnInfo.WARN
            ["Unknown slave address (" ++ hex04 a ++ ")"]])
    ∧ decode opts st2 ss2 es2 BusEvent.start
      = some ({ st2 with ss := ss2, es := es2, ssb := ss2, state := "ADDRESS SLAVE" }, []) := by
  have hbeq : (a == GeneralCall.ADDRESS) = false := beq_eq_false_iff_ne.mpr hgc
  refine ⟨?_, ?_, ?_⟩
  · simp [decode, BusEvent.isBits, decode_addr, check_addr, hst, hmem, hbeq]
  · simp [decode, BusEvent.isBits, decode_addr, check_addr, hst, hmem, hbeq]
  · simp [decode, BusEvent.isBits, decode_idle, hst2]

/-- Witness for `C9_unknown_addr` at the concrete unknown address `0x50`. -/
theorem C9_witness :
    decode defaultOpts stA0 4 5 (BusEvent.addressWrite 0x50)
      = some ({ stA0 with ss := 4, es := 5, state := "IDLE" },
          [DecFact.mk stA0.ssb 5 AnnInfo.WARN
            ["Unknown slave address (" ++ hex04 0x50 ++ ")"]])
    ∧ decode defaultOpts stA0 4 5 (BusEvent.addressRead 0x50)
      = some ({ stA0 with ss := 4, es := 5, state := "IDLE" },
          [DecFact.mk stA0.ssb 5 AnnInfo.WARN
            ["Unknown slave address (" ++ hex04 0x50 ++ ")"]])
    ∧ decode defaultOpts Decoder.reset 6 7 BusEvent.start
      = some ({ Decoder.reset with ss := 6, es := 7, ssb := 6, state := "ADDRESS SLAVE" }, []) :=
  C9_unknown_addr defaultOpts stA0 Decoder.reset 4 5 6 7 0x50 rfl (by decide) (by decide) rfl

/-! ### Claim C4 — pointer-write transaction with no data bytes -/

def c4Events : List (Nat × Nat × BusEvent) :=
  [(0, 1, BusEvent.start), (2, 3, BusEvent.addressWrite 0x48),
   (4, 5, BusEvent.dataWrite 0x01), (6, 7, BusEvent.stop)]

/-- Claim C4: the transaction `Start, AddressWrite(0x48), DataWrite(0x01),
Stop` does NOT complete with a presence-check fact: after the address and
register-select facts, the `STOP` dispatches to `handle_datareg_0x01` with an
empty byte buffer and `self.bytes[1]` raises `IndexError` (`none`).  The
presence-check path only runs when `STOP` arrives before any pointer byte. -/
theorem C4_code_eval :
    runEvents defaultOpts Decoder.reset c4Events = none
    ∧ (runEvents defaultOpts Decoder.reset (c4Events.take 3)).map
        (fun r => r.2.map DecFact.ann) = some [AnnAddrs.GND, AnnRegs.CONF] := by
  decide

/-! ### Claim C6 — decode of the power-up CONFIG word 0x60A0 -/

/-- Whether some emitted fact with annotation id `ann` carries the rendering
`s` among its variants. -/
def hasAnnot (fs : List DecFact) (ann : Nat) (s : String) : Bool :=
  fs.any (fun f => f.ann == ann && f.annots.contains s)

def c6Res : Option (DecoderState × List DecFact) :=
  handle_datareg_0x01 defaultOpts stConf60A0

/-- The decoded field values claimed for CONFIG word `0x60A0`, checked
against the emitted annotation variants, plus the power-up (not custom)
info label and the extended-mode flag staying clear. -/
def c6Checks (r : DecoderState × List DecFact) : Bool :=
  hasAnnot r.2 AnnBits.OS "One-shot conversion: disabled"
  && hasAnnot r.2 AnnBits.R0 "Converter resolution: 12bit"
  && hasAnnot r.2 AnnBits.F0 "Consecutive faults: 1"
  && hasAnnot r.2 AnnBits.POL "Polarity: low"
  && hasAnnot r.2 AnnBits.TM "Thermostat mode: comparator"
  && hasAnnot r.2 AnnBits.SD "Shutdown mode: disabled"
  && hasAnnot r.2 AnnBits.CR0 "Conversion rate: 4Hz"
  && hasAnnot r.2 AnnBits.AL "Alert: inactive"
  && hasAnnot r.2 AnnBits.EM "Extended mode: disabled"
  && hasAnnot r.2 AnnInfo.CONF "Write Configuration: Power-up reset"
  && !(hasAnnot r.2 AnnInfo.CONF "Write Configuration: Custom")
  && (r.1.em == false)

/-- Claim C6: decoding the CONFIG register word `0x60A0` emits the claimed
field values (OS disabled, 12-bit resolution, 1 fault, polarity low,
comparator mode, shutdown disabled, 4 Hz, alert inactive, extended mode
disabled) and labels the info row with the recognised power-up value, not
the custom label. -/
theorem C6_config_powerup : c6Res.map c6Checks = some true := by decide

/-- Witness for `C10_amended` at a concrete raw word with the EM bit clear. -/
theorem C10_witness :
    (calculate_temperature defaultOpts Decoder.reset 0x1900).1 =
      if 0x1900 &&& (1 <<< TempBits.EM) != 0 then { Decoder.reset with em := true }
      else Decoder.reset :=
  C10_amended defaultOpts Decoder.reset 0x1900
